import Mathlib

/-!
Verification of the chat orchestration core of the ai_companion backend.

The Lean definitions below are shallow embeddings of the Python source:
  - `app/models/conversation.py` (Conversation counter),
  - `app/services/conversation_context.py` (Context Store),
  - `app/services/prompt_builder.py` (Prompt Builder),
  - `app/services/llm_service.py` (Provider Registry),
  - `app/services/chat_service.py` (Chat Orchestrator),
  - `app/utils/sse.py` and `app/routes/chat.py` (Streaming Transport).

Conventions: Python dictionaries typed `Dict[str, str]` with keys `role` /
`content` become the `Msg` structure; Python `try`/`except` blocks become
`Except`-valued oracles consumed by total functions (the embedded function
returns what the Python function returns after its own exception handling);
Python integer division `//` on non-negative lengths is `Nat` division, and
quantities that can go negative in Python (token budgets) are `Int`.
-/

namespace AiCompanion

/-- A chat message dictionary `{"role": ..., "content": ...}` as passed
between the context store, the prompt builder and the providers. -/
structure Msg where
  role : String
  content : String
deriving DecidableEq, Repr

/-! ## Conversation counter (`app/models/conversation.py`,
`app/services/conversation_context.py`) -/

/-- A persisted `messages` table row belonging to one conversation
(`app/models/message.py`): `sender_type` is `"user"` or `"assistant"`. -/
structure MessageRow where
  sender_type : String
  content : String
deriving DecidableEq, Repr

/-- The persistent state of one conversation: its `message_count` column and
its persisted `Message` rows in creation order. -/
structure ConvState where
  message_count : Nat
  rows : List MessageRow
deriving DecidableEq, Repr

/-- `Conversation.increment_message_count` (`conversation.py` lines 76-79):
adds one to the counter (the `last_message_at` touch carries no data we track). -/
def incrementMessageCount (s : ConvState) : ConvState :=
  { s with message_count := s.message_count + 1 }

/-- Core of `ConversationContext.save_user_message` /
`save_assistant_message` (`conversation_context.py` lines 209-293) in the
successful case: one `Message` row is inserted and
`increment_message_count` runs on the (found) conversation, in one commit. -/
def saveMessage (senderType content : String) (s : ConvState) : ConvState :=
  incrementMessageCount { s with rows := s.rows ++ [⟨senderType, content⟩] }

/-- One successful persistence call against a conversation. -/
inductive SaveOp where
  | user (content : String)
  | assistant (content : String)
deriving DecidableEq, Repr

/-- Dispatch of one save call: `save_user_message` writes a `"user"` row,
`save_assistant_message` writes an `"assistant"` row. -/
def applySave (s : ConvState) (op : SaveOp) : ConvState :=
  match op with
  | .user c => saveMessage "user" c s
  | .assistant c => saveMessage "assistant" c s

/-- A conversation as freshly created by
`ConversationContext.get_or_create_conversation` (`conversation_context.py`
lines 52-58): `message_count=0` and no rows yet. -/
def newConversation : ConvState := ⟨0, []⟩

/-- State of a conversation after a sequence of successful save calls. -/
def runSaves (ops : List SaveOp) : ConvState :=
  List.foldl applySave newConversation ops

/-! ## Prompt Builder (`app/services/prompt_builder.py`) -/

/-- Token estimate used throughout the prompt builder: `len(prompt) // 4`. -/
def estTokens (s : String) : Nat := s.length / 4

/-- The `max_prompt_tokens` entry of `PromptBuilder.provider_limits`
(`prompt_builder.py` lines 18-29); unknown providers fall back to `groq`
(line 130 and the `dict.get(provider, groq)` on line 228). -/
def maxPromptTokens (provider : String) : Nat :=
  if provider = "groq" then 150
  else if provider = "openai" then 500
  else 150

/-- The `max_context_tokens` entry of `PromptBuilder.provider_limits`. -/
def maxContextTokens (provider : String) : Nat :=
  if provider = "groq" then 2000
  else if provider = "openai" then 4000
  else 2000

/-- The remaining budget for context messages computed in
`_optimize_context_for_provider` (lines 228-233):
`max_context_tokens - system_tokens - 50`.  It is an `Int` because the
Python subtraction can go negative. -/
def availableContextTokens (provider systemPrompt : String) : Int :=
  (maxContextTokens provider : Int) - (estTokens systemPrompt : Int) - 50

/-- The selection loop of `_optimize_context_for_provider` (lines 236-245),
run over the reversed context (newest first): accept messages while the
running token total stays within budget, stop at the first overflow.
Returns the accepted messages newest first (the Python `insert(0, _)`
builds the same selection oldest first). -/
def selectNewest (available : Int) : List Msg → Int → List Msg
  | [], _ => []
  | m :: rest, current =>
    if current + (estTokens m.content : Int) > available then []
    else m :: selectNewest available rest (current + (estTokens m.content : Int))

/-- `PromptBuilder._optimize_context_for_provider` (lines 218-248): trim the
context to the most recent messages that fit the provider budget, returned
oldest first. -/
def optimizeContextForProvider (contextMessages : List Msg)
    (provider systemPrompt : String) : List Msg :=
  (selectNewest (availableContextTokens provider systemPrompt)
    contextMessages.reverse 0).reverse

/-! ### Python string primitives

The Lean core string functions `trim`, `splitOn`, `replace` and `toLower`
are defined by well-founded recursion and do not reduce in the kernel, so
the Python string methods used by the prompt builder are embedded here as
structurally recursive (fuel-based, hence kernel-computable) functions over
the character list of the string.  Each mirrors the CPython semantics of the
corresponding method for the non-empty patterns the source uses. -/

/-- The characters Python `str.strip()` removes
(`' '`, `'\t'`, `'\n'`, `'\r'`, `'\x0b'`, `'\x0c'`). -/
def pyIsSpace (c : Char) : Bool :=
  c == ' ' || c == '\t' || c == '\n' || c == '\r'
    || c == Char.ofNat 11 || c == Char.ofNat 12

/-- Python `s.strip()`: drop whitespace from both ends. -/
def pyStrip (s : String) : String :=
  String.mk ((s.data.dropWhile pyIsSpace).reverse.dropWhile pyIsSpace).reverse

/-- Left-to-right, non-overlapping split on a non-empty separator; `fuel`
bounds the recursion and is always at least `length + 1` at the call site,
so it never runs out. -/
def pySplitAux (sep : List Char) :
    Nat → List Char → List Char → List (List Char)
  | 0, l, acc => [acc.reverse ++ l]
  | _ + 1, [], acc => [acc.reverse]
  | fuel + 1, c :: rest, acc =>
    if sep.isPrefixOf (c :: rest) then
      acc.reverse :: pySplitAux sep fuel ((c :: rest).drop sep.length) []
    else pySplitAux sep fuel rest (c :: acc)

/-- Python `s.split(sep)` for a non-empty separator. -/
def pySplit (s sep : String) : List String :=
  (pySplitAux sep.data (s.data.length + 1) s.data []).map String.mk

/-- Python substring containment `sub in s` for a non-empty pattern:
the split has more than one piece exactly when `sub` occurs in `s`. -/
def pyContains (s sub : String) : Bool := (pySplit s sub).length > 1

/-- Left-to-right, non-overlapping replacement of a non-empty pattern. -/
def pyReplaceAux (old new : List Char) : Nat → List Char → List Char
  | 0, l => l
  | _ + 1, [] => []
  | fuel + 1, c :: rest =>
    if old.isPrefixOf (c :: rest) then
      new ++ pyReplaceAux old new fuel ((c :: rest).drop old.length)
    else c :: pyReplaceAux old new fuel rest

/-- Python `s.replace(old, new)` for a non-empty `old`. -/
def pyReplace (s old new : String) : String :=
  String.mk (pyReplaceAux old.data new.data (s.data.length + 1) s.data)

/-- Python `s.lower()` restricted to ASCII letters (the prompts under
comparison only match ASCII keywords). -/
def pyLower (s : String) : String := String.mk (s.data.map Char.toLower)

/-- Python `sep.join(parts)`. -/
def pyJoin (sep : String) : List String → String
  | [] => ""
  | [x] => x
  | x :: y :: rest => x ++ sep ++ pyJoin sep (y :: rest)

/-- Name extraction loop of `_create_concise_prompt` (lines 156-163): the
first line containing both `"You are"` and a comma contributes
`line.split(',')[0].replace("You are", "").strip()` when that is non-empty;
otherwise scanning continues, defaulting to `"Assistant"`. -/
def extractName : List String → String
  | [] => "Assistant"
  | line :: rest =>
    if pyContains line "You are" && pyContains line "," then
      let parts :=
        pyStrip (pyReplace ((pySplit line ",").headD "") "You are" "")
      if parts ≠ "" then parts else extractName rest
    else extractName rest

/-- The trait keywords scanned by `_create_concise_prompt` (line 167). -/
def traitKeywords : List String :=
  ["friendly", "playful", "caring", "witty", "empathetic"]

/-- Personality extraction loop of `_create_concise_prompt` (lines 166-172):
on the first line whose lowercasing contains a trait keyword, pick the first
matching keyword; default `"helpful"`. -/
def extractPersonality : List String → String
  | [] => "helpful"
  | line :: rest =>
    match traitKeywords.find? (fun t => pyContains (pyLower line) t) with
    | some t => t
    | none => extractPersonality rest

/-- `PromptBuilder._create_concise_prompt` (lines 148-178), the strict-budget
(groq) compression: a single templated sentence around the extracted name and
trait. -/
def createConcisePrompt (fullPrompt : String) : String :=
  let lines := pySplit fullPrompt "\n"
  "You are " ++ extractName lines ++ ", a " ++ extractPersonality lines
    ++ " AI companion. Respond in the user's language. Keep responses under 100 words unless asked for more. Be warm, helpful, and engaging."

/-- Accumulator of the section-splitting loop in `_create_balanced_prompt`
(lines 185-206). -/
structure BalancedAcc where
  current : String
  firstSection : List String
  personalitySection : List String
  styleSection : List String
deriving Repr

/-- One iteration of the loop in `_create_balanced_prompt` (lines 191-206). -/
def balancedStep (acc : BalancedAcc) (rawLine : String) : BalancedAcc :=
  let line := pyStrip rawLine
  if line = "" then acc
  else
    let current :=
      if pyContains (pyLower line) "personality"
          || pyContains (pyLower line) "traits" then
        "personality"
      else if pyContains (pyLower line) "style"
          || pyContains (pyLower line) "communication" then
        "style"
      else acc.current
    if current = "first" ∧ acc.firstSection.length < 3 then
      { acc with current := current, firstSection := acc.firstSection ++ [line] }
    else if current = "personality" ∧ acc.personalitySection.length < 5 then
      { acc with current := current,
                 personalitySection := acc.personalitySection ++ [line] }
    else if current = "style" ∧ acc.styleSection.length < 3 then
      { acc with current := current, styleSection := acc.styleSection ++ [line] }
    else
      { acc with current := current }

/-- `PromptBuilder._create_balanced_prompt` (lines 180-216), the
generous-budget (openai) compression: opening lines plus truncated trait and
style bullets. -/
def createBalancedPrompt (fullPrompt : String) : String :=
  let acc := (pySplit fullPrompt "\n").foldl balancedStep ⟨"first", [], [], []⟩
  let balanced := pyJoin "\n" acc.firstSection
  let balanced :=
    if acc.personalitySection ≠ [] then
      balanced ++ "\n\nKey traits: "
        ++ pyJoin " " (acc.personalitySection.take 3)
    else balanced
  if acc.styleSection ≠ [] then
    balanced ++ "\n\nStyle: " ++ pyJoin " " (acc.styleSection.take 2)
  else balanced

/-- `PromptBuilder._optimize_for_provider` (lines 127-146): keep the prompt
when its estimate fits `max_prompt_tokens`, otherwise compress it with the
provider-specific strategy (unknown providers default to groq). -/
def optimizeForProvider (prompt provider : String) : String :=
  let provider := if provider = "groq" ∨ provider = "openai" then provider else "groq"
  if estTokens prompt ≤ maxPromptTokens provider then prompt
  else if provider = "groq" then createConcisePrompt prompt
  else createBalancedPrompt prompt

/-- A `Character` row (`app/models/character.py`): the fields the chat core
reads. -/
structure Character where
  id : Nat
  name : String
  personality_type : String
  is_premium : Bool
deriving DecidableEq, Repr

/-- Language instructions of `_get_fallback_system_prompt` (lines 252-258). -/
def languageInstruction (language : String) : String :=
  if language = "en" then "Respond in English."
  else if language = "hi" then "हिंदी में जवाब दें।"
  else if language = "ta" then "தமிழில் பதிலளியுங்கள்।"
  else "Respond in English."

/-- Personality descriptions of `_get_fallback_system_prompt` (lines 260-269). -/
def personalityDescription (personalityType : String) : String :=
  if personalityType = "friendly" then "warm and supportive"
  else if personalityType = "playful" then "fun-loving and witty"
  else if personalityType = "caring" then "empathetic and nurturing"
  else "helpful and friendly"

/-- `PromptBuilder._get_fallback_system_prompt` (lines 250-271). -/
def getFallbackSystemPrompt (c : Character) (language : String) : String :=
  "You are " ++ c.name ++ ", a " ++ personalityDescription c.personality_type
    ++ " AI companion. " ++ languageInstruction language
    ++ " Be helpful, engaging, and keep responses under 100 words unless asked for more."

/-- `PromptBuilder.get_system_prompt` (lines 31-70).  The multilingual
template table of `app/prompts/character_prompts.py` is abstracted as the
input `charPrompt`, the result of `get_character_prompt_by_character_id`
(`None` or a template string); a `None` or empty result selects the fallback
prompt (Python truthiness of `if not full_prompt`), and the chosen prompt is
optimized for the provider. -/
def getSystemPrompt (charPrompt : Option String) (c : Character)
    (language provider : String) : String :=
  match charPrompt with
  | none => optimizeForProvider (getFallbackSystemPrompt c language) provider
  | some p =>
    if p = "" then optimizeForProvider (getFallbackSystemPrompt c language) provider
    else optimizeForProvider p provider

/-- `PromptBuilder._validate_message_structure` (lines 273-285) as a
predicate: the Python function raises exactly when some entry has an invalid
role or whitespace-only content (the role/content keys are always present in
the typed embedding). -/
def validateMessageStructure (messages : List Msg) : Bool :=
  messages.all (fun m =>
    (m.role == "system" || m.role == "user" || m.role == "assistant")
      && !(pyStrip m.content == ""))

/-- The minimal safe structure returned by the `except` branch of
`build_messages` (lines 119-125). -/
def fallbackMessages (c : Character) (userMessage : String) : List Msg :=
  [⟨"system", "You are " ++ c.name ++ ", a helpful AI assistant."⟩,
   ⟨"user", userMessage⟩]

/-- `PromptBuilder.build_messages` (lines 72-125): system prompt, trimmed
context, then the user message; if final validation raises, the `except`
branch returns the minimal safe structure instead. -/
def buildMessages (charPrompt : Option String) (c : Character)
    (contextMessages : List Msg) (userMessage language provider : String) :
    List Msg :=
  let systemPrompt := getSystemPrompt charPrompt c language provider
  let optimizedContext :=
    optimizeContextForProvider contextMessages provider systemPrompt
  let messages :=
    (⟨"system", systemPrompt⟩ :: optimizedContext) ++ [⟨"user", userMessage⟩]
  if validateMessageStructure messages then messages
  else fallbackMessages c userMessage

/-! ## Provider Registry (`app/services/llm_service.py`) -/

/-- In-memory provider state of `LLMService`: `clients` is the list of
provider names initialized with a valid API key, in registration order;
`currentProvider` is the configured `primary_provider` (always a string,
default `"groq"` in `app/config.py`); `fallbackProvider` the configured
optional fallback. -/
structure LLMState where
  clients : List String
  currentProvider : String
  fallbackProvider : Option String
deriving DecidableEq, Repr

/-- Resolution step of `LLMService.get_client` (lines 46-57): the requested
provider (or the current one when unspecified or empty, Python `or`), falling
back to the first available client for unknown names; `none` when no client
is configured (the Python `ValueError`). -/
def resolveClient (st : LLMState) (target : Option String) : Option String :=
  let t := match target with
    | some p => if p = "" then st.currentProvider else p
    | none => st.currentProvider
  if st.clients.contains t then some t else st.clients.head?

/-- `LLMService.test_connection` (lines 79-96): `probe p` abstracts the
outcome of the minimal completion request against provider `p`'s client
(true exactly when a non-empty choice comes back); every exception,
including the no-client `ValueError`, yields `false`. -/
def testConnection (probe : String → Bool) (st : LLMState)
    (provider : Option String) : Bool :=
  match resolveClient st provider with
  | some p => probe p
  | none => false

/-- Python truthiness of `self._fallback_provider` (line 105): present and
non-empty. -/
def fallbackTruthy (st : LLMState) : Option String :=
  match st.fallbackProvider with
  | some fb => if fb = "" then none else some fb
  | none => none

/-- The final loop of `get_available_provider` (lines 110-114): the first
configured provider other than current/fallback whose connection test
passes. -/
def tryRemainingProviders (probe : String → Bool) (st : LLMState) :
    Option String :=
  (st.clients.filter (fun p =>
      !(p == st.currentProvider) && !(st.fallbackProvider == some p))).find?
    (fun p => testConnection probe st (some p))

/-- `LLMService.get_available_provider` (lines 98-117): current provider
first, then the (truthy) fallback, then any remaining configured provider in
registration order; `none` when everything fails. -/
def getAvailableProvider (probe : String → Bool) (st : LLMState) :
    Option String :=
  if testConnection probe st (some st.currentProvider) then
    some st.currentProvider
  else
    match fallbackTruthy st with
    | some fb =>
      if testConnection probe st (some fb) then some fb
      else tryRemainingProviders probe st
    | none => tryRemainingProviders probe st

/-! ## Chat Orchestrator (`app/services/chat_service.py`) -/

/-- An event yielded by `ChatService._generate_ai_response`. -/
inductive GenEvent where
  | content (text provider : String)
  | genError (code provider : String) (retries : Nat)
deriving DecidableEq, Repr

/-- `ChatService.max_retries` (`chat_service.py` line 26). -/
def maxRetriesChat : Nat := 2

/-- The retry/failover loop of `ChatService._generate_ai_response` (lines
219-307).  `attempt k p` abstracts the completion call of attempt number `k`
against provider `p`: `some chunks` is a successful (streamed) response,
`none` an exception.  `fuel` counts the remaining loop iterations (the loop
guard `retries <= max_retries` holds exactly when `fuel > 0` for the
invocation below).  Returns the yielded events together with the list of
providers actually attempted, in order. -/
def generateLoop (attempt : Nat → String → Option (List String))
    (probe : String → Bool) (st : LLMState) :
    Nat → Nat → String → List GenEvent × List String
  | 0, retries, provider =>
    ([.genError "GENERATION_FAILED" provider retries], [])
  | fuel + 1, retries, provider =>
    match attempt retries provider with
    | some chunks => (chunks.map (fun s => GenEvent.content s provider), [provider])
    | none =>
      if retries + 1 ≤ maxRetriesChat then
        if provider = st.currentProvider ∧ (fallbackTruthy st).isSome then
          ((generateLoop attempt probe st fuel (retries + 1)
              ((fallbackTruthy st).getD provider)).1,
            provider ::
              (generateLoop attempt probe st fuel (retries + 1)
                ((fallbackTruthy st).getD provider)).2)
        else
          match getAvailableProvider probe st with
          | some ap =>
            if ap ≠ provider then
              ((generateLoop attempt probe st fuel (retries + 1) ap).1,
                provider ::
                  (generateLoop attempt probe st fuel (retries + 1) ap).2)
            else
              ([.genError "GENERATION_FAILED" provider (retries + 1)],
                [provider])
          | none =>
            ([.genError "GENERATION_FAILED" provider (retries + 1)],
              [provider])
      else
        ([.genError "GENERATION_FAILED" provider (retries + 1)], [provider])

/-- `ChatService._generate_ai_response` entered with `retries = 0`; at most
`max_retries + 1` loop iterations can run. -/
def generateAiResponse (attempt : Nat → String → Option (List String))
    (probe : String → Bool) (st : LLMState) (provider : String) :
    List GenEvent × List String :=
  generateLoop attempt probe st (maxRetriesChat + 1) 0 provider

/-- An event yielded by `ChatService.process_message` or the route-level SSE
generator. -/
inductive ChatEvent where
  | errorEv (code : String)
  | metadata
  | content (text : String)
  | complete
  | endMarker
deriving DecidableEq, Repr

/-- Terminal events in the sense of the streaming contract: `complete` or
`error`. -/
def isTerminal : ChatEvent → Bool
  | .errorEv _ => true
  | .complete => true
  | _ => false

/-- The forwarding loop of `process_message` over `_generate_ai_response`
(lines 142-151): content chunks pass through; the first error chunk is
forwarded and the generator returns (`true` marks the aborted case). -/
def relayGeneration : List GenEvent → List ChatEvent × Bool
  | [] => ([], false)
  | .content s _ :: rest =>
    (.content s :: (relayGeneration rest).1, (relayGeneration rest).2)
  | .genError code _ _ :: _ => ([.errorEv code], true)

/-- The outcomes of the I/O steps of one `process_message` run: the resolved
character, the conversation, the selected provider, and the events produced
by the generation step.  Message-save failures are logged only and produce
no events, so they do not appear here. -/
structure ChatEnv where
  character : Option Character
  conversationId : Option Nat
  provider : Option String
  genEvents : List GenEvent
deriving Repr

/-- `ChatService.process_message` (lines 29-182) as the list of events it
yields: each guard failure yields a single error event and returns;
otherwise one metadata event, the relayed generation events, and - unless
generation aborted with an error - a final complete event. -/
def processMessage (env : ChatEnv) : List ChatEvent :=
  match env.character with
  | none => [.errorEv "CHARACTER_NOT_SELECTED"]
  | some _ =>
    match env.conversationId with
    | none => [.errorEv "CONVERSATION_ERROR"]
    | some _ =>
      match env.provider with
      | none => [.errorEv "SERVICE_UNAVAILABLE"]
      | some _ =>
        let r := relayGeneration env.genEvents
        if r.2 then .metadata :: r.1
        else .metadata :: r.1 ++ [.complete]

/-! ## Streaming Transport (`app/utils/sse.py`, `app/routes/chat.py`) -/

/-- `sse_chat_generator` (`sse.py` lines 138-182): forwards each chunk (the
SSE string formatting is one-to-one) and breaks right after a complete or
error chunk. -/
def sseChatGenerator : List ChatEvent → List ChatEvent
  | [] => []
  | e :: rest => if isTerminal e then [e] else e :: sseChatGenerator rest

/-- `sse_generator` in `routes/chat.py` (lines 50-80): an error event when
the route finds no selected character; otherwise every `process_message`
chunk is forwarded and a final `{"type": "end"}` marker is yielded. -/
def routeSseGenerator (routeCharacter : Option Character) (env : ChatEnv) :
    List ChatEvent :=
  match routeCharacter with
  | none => [.errorEv "CHARACTER_NOT_SELECTED"]
  | some _ => processMessage env ++ [.endMarker]

/-! ## Character resolution (`app/services/character.py`,
`app/services/chat_service.py`) -/

/-- `Character.can_be_used_by_user` (`character.py` model, lines 48-52). -/
def canBeUsedByUser (c : Character) (userIsPremium : Bool) : Bool :=
  !(c.is_premium && !userIsPremium)

/-- `CharacterService.get_character_by_id` (lines 57-82) over the characters
table (a list ordered by id). -/
def getCharacterById (db : List Character) (characterId : Nat) :
    Option Character :=
  db.find? (fun c => c.id == characterId)

/-- `CharacterService.get_all_characters` (lines 25-55): premium users see
everything, free users only non-premium characters, ordered by id. -/
def getAllCharacters (db : List Character) (userIsPremium : Bool) :
    List Character :=
  if userIsPremium then db else db.filter (fun c => !c.is_premium)

/-- Default-assignment tail of `ChatService._get_user_character` (lines
206-213): first character of `get_all_characters()` (called with its default
`user_is_premium=False`), cached as the selection.  Returns the resolved
character and the cached selection afterwards. -/
def getUserCharacterDefault (db : List Character) (cache : Option Nat) :
    Option Character × Option Nat :=
  match getAllCharacters db false with
  | [] => (none, cache)
  | c :: _ => (some c, some c.id)

/-- Cached-selection branch of `ChatService._get_user_character` (lines
199-204): a truthy cached id that resolves wins; otherwise fall through to
the default assignment. -/
def getUserCharacterCached (db : List Character) (cache : Option Nat) :
    Option Character × Option Nat :=
  match cache with
  | some cid =>
    if cid ≠ 0 then
      match getCharacterById db cid with
      | some c => (some c, cache)
      | none => getUserCharacterDefault db cache
    else getUserCharacterDefault db cache
  | none => getUserCharacterDefault db cache

/-- `ChatService._get_user_character` (lines 184-217): a truthy explicit
`character_id` that resolves is returned (and cached); otherwise the cached
selection, then the default assignment. -/
def getUserCharacter (db : List Character) (cache : Option Nat)
    (characterId : Option Nat) : Option Character × Option Nat :=
  match characterId with
  | some cid =>
    if cid ≠ 0 then
      match getCharacterById db cid with
      | some c => (some c, some cid)
      | none => getUserCharacterCached db cache
    else getUserCharacterCached db cache
  | none => getUserCharacterCached db cache

/-- `CharacterService.get_user_selected_character` (lines 169-199): resolve
the truthy cached selection; an unresolvable cached id is cleared and `none`
is returned.  Returns the character and the cache afterwards. -/
def getUserSelectedCharacter (db : List Character) (cache : Option Nat) :
    Option Character × Option Nat :=
  match cache with
  | some cid =>
    if cid ≠ 0 then
      match getCharacterById db cid with
      | some c => (some c, cache)
      | none => (none, none)
    else (none, cache)
  | none => (none, cache)

/-- Result of `CharacterService.select_character` (lines 105-167). -/
inductive SelectResult where
  | ok (c : Character)
  | characterNotFound
  | premiumRequired
  | cacheError
deriving DecidableEq, Repr

/-- `CharacterService.select_character` (lines 105-167): access check via
`can_user_access_character` (lines 84-103), `PREMIUM_REQUIRED` for an
existing but premium-gated character, then the cache write.  Returns the
result and the cache afterwards. -/
def selectCharacter (db : List Character) (cache : Option Nat)
    (characterId : Nat) (userIsPremium cacheWriteOk : Bool) :
    SelectResult × Option Nat :=
  match getCharacterById db characterId with
  | none => (.characterNotFound, cache)
  | some c =>
    if canBeUsedByUser c userIsPremium then
      if cacheWriteOk then (.ok c, some characterId)
      else (.cacheError, cache)
    else (.premiumRequired, cache)

/-- `ChatService.switch_character` (`chat_service.py` lines 359-409): only
existence is validated before the selection is cached - no premium check.
Returns success and the cache afterwards. -/
def chatSwitchCharacter (db : List Character) (cache : Option Nat)
    (characterId : Nat) (cacheWriteOk : Bool) : Bool × Option Nat :=
  match getCharacterById db characterId with
  | none => (false, cache)
  | some _ =>
    if cacheWriteOk then (true, some characterId)
    else (false, cache)

/-! ## Context Store failure handling (`app/services/conversation_context.py`,
`app/services/redis.py`)

Each I/O dependency is an `Except String _` oracle: `.error` is the
dependency raising, `.ok` its value.  The embedded functions return
`Except String _` as observed by the *caller*: `.error` would mean the
exception escapes, `.ok v` means the Python function returns `v`. -/

/-- A `conversations` row as read back by the context store. -/
structure Conversation where
  id : Nat
  user_id : Nat
  character_id : Nat
  message_count : Nat
deriving DecidableEq, Repr

/-- `RedisService.get_cache` (`redis.py` lines 151-176): any cache-layer
exception is caught and turned into `None`, the cache-miss value. -/
def redisGetCache {α : Type} (raw : Except String (Option α)) : Option α :=
  match raw with
  | .error _ => none
  | .ok v => v

/-- `ConversationContext.get_or_create_conversation` (lines 22-69) as seen by
its caller: `lookup` is the SELECT on (user, character), `create` the INSERT
plus commit; the surrounding `try`/`except` turns every storage failure into
a `None` return, so the result is always `.ok`. -/
def getOrCreateConversationR (lookup : Except String (Option Conversation))
    (create : Except String Conversation) :
    Except String (Option Conversation) :=
  match lookup with
  | .error _ => .ok none
  | .ok (some conv) => .ok (some conv)
  | .ok none =>
    match create with
    | .error _ => .ok none
    | .ok conv => .ok (some conv)

/-- `ConversationContext.get_conversation_cache_key` (lines 71-92): build
`conv:{user}:{character}` from the conversation row; a storage failure or a
missing row gives `None`. -/
def getConversationCacheKey (convLookup : Except String (Option Conversation)) :
    Option String :=
  match convLookup with
  | .error _ => none
  | .ok none => none
  | .ok (some conv) =>
    some ("conv:" ++ toString conv.user_id ++ ":" ++ toString conv.character_id)

/-- Python truthiness of a cached list (`if cached_context:`): an empty list
counts as a miss. -/
def truthyList {α : Type} : Option (List α) → Option (List α)
  | some [] => none
  | some (x :: xs) => some (x :: xs)
  | none => none

/-- Conversion of a cached or stored row to the OpenAI message format
(lines 124-130 and 144-151): `sender_type == "user"` maps to role `user`,
everything else to `assistant`. -/
def toContextMsg (m : MessageRow) : Msg :=
  ⟨if m.sender_type == "user" then "user" else "assistant", m.content⟩

/-- `ConversationContext.get_message_context` (lines 94-161) as seen by its
caller.  `ctxCacheRaw` is the raw cache read of `conv:{id}:ctx:{limit}`,
`convLookup` the conversation lookup behind `get_conversation_cache_key`,
`convCacheRaw` the raw conversation-level cache read, and `dbRead` the
SELECT of the most recent `limit` messages (newest first).  Cache failures
become misses inside `redisGetCache`; the storage `try`/`except` turns a
failing SELECT into an empty-list return, so the result is always `.ok`.
The conversation-level cache branch (lines 117-132), taken only for
`limit = 5`, is split out here as `convLevelContext`. -/
def convLevelContext (limit : Nat)
    (convLookup : Except String (Option Conversation))
    (convCacheRaw : Except String (Option (List MessageRow))) :
    Option (List Msg) :=
  if limit = 5 then
    match getConversationCacheKey convLookup with
    | some _ =>
      match truthyList (redisGetCache convCacheRaw) with
      | some rows => some (rows.map toContextMsg)
      | none => none
    | none => none
  else none

/-- Main body of `get_message_context`: per-limit cache, then the
conversation-level cache (`convLevelContext`), then the SELECT. -/
def getMessageContext (limit : Nat)
    (ctxCacheRaw : Except String (Option (List Msg)))
    (convLookup : Except String (Option Conversation))
    (convCacheRaw : Except String (Option (List MessageRow)))
    (dbRead : Except String (List MessageRow)) :
    Except String (List Msg) :=
  match truthyList (redisGetCache ctxCacheRaw) with
  | some cached => .ok cached
  | none =>
    match convLevelContext limit convLookup convCacheRaw with
    | some ctx => .ok ctx
    | none =>
      match dbRead with
      | .error _ => .ok []
      | .ok rowsNewestFirst => .ok (rowsNewestFirst.reverse.map toContextMsg)

/-! ## Theorems -/

/-- Invariant preservation for one save call. -/
lemma applySave_preserves (s : ConvState) (op : SaveOp)
    (h : s.message_count = s.rows.length) :
    (applySave s op).message_count = (applySave s op).rows.length := by
  cases op <;>
    simp [applySave, saveMessage, incrementMessageCount, h]

/-- Invariant preservation along a fold. -/
lemma foldl_applySave_preserves (ops : List SaveOp) :
    ∀ (s : ConvState), s.message_count = s.rows.length →
      (List.foldl applySave s ops).message_count
        = (List.foldl applySave s ops).rows.length := by
  induction ops with
  | nil => intro s h; exact h
  | cons op rest ih =>
    intro s h
    exact ih (applySave s op) (applySave_preserves s op h)

/-- C1: after any sequence of successful `save_user_message` /
`save_assistant_message` calls on a conversation created with
`message_count = 0`, the conversation's `message_count` equals the number of
persisted `Message` rows belonging to it. -/
theorem message_count_eq_persisted_rows (ops : List SaveOp) :
    (runSaves ops).message_count = (runSaves ops).rows.length :=
  foldl_applySave_preserves ops newConversation rfl

/-- The candidate message list assembled by `build_messages` before final
validation. -/
def candidateMessages (charPrompt : Option String) (c : Character)
    (contextMessages : List Msg) (userMessage language provider : String) :
    List Msg :=
  let systemPrompt := getSystemPrompt charPrompt c language provider
  (⟨"system", systemPrompt⟩ ::
      optimizeContextForProvider contextMessages provider systemPrompt)
    ++ [⟨"user", userMessage⟩]

/-- `buildMessages` in terms of the candidate list. -/
lemma buildMessages_eq_candidate (charPrompt : Option String) (c : Character)
    (contextMessages : List Msg) (userMessage language provider : String) :
    buildMessages charPrompt c contextMessages userMessage language provider
      = if validateMessageStructure
            (candidateMessages charPrompt c contextMessages userMessage
              language provider) then
          candidateMessages charPrompt c contextMessages userMessage language
            provider
        else fallbackMessages c userMessage := rfl

/-- Both branches of `build_messages` end in the user entry. -/
lemma buildMessages_getLast (charPrompt : Option String) (c : Character)
    (contextMessages : List Msg) (userMessage language provider : String) :
    (buildMessages charPrompt c contextMessages userMessage language
        provider).getLast?
      = some ⟨"user", userMessage⟩ := by
  rw [buildMessages_eq_candidate]
  split
  · simp only [candidateMessages, ← List.cons_append, List.getLast?_concat]
  · simp [fallbackMessages]

/-- C2: the message list returned by `build_messages` always ends in exactly
the submitted user message, `{"role": "user", "content": userMessage}`, with
the content unchanged - in the normal branch and in the exception branch
alike. -/
theorem build_messages_last_is_user_message (charPrompt : Option String)
    (c : Character) (contextMessages : List Msg)
    (userMessage language provider : String) :
    (buildMessages charPrompt c contextMessages userMessage language
        provider).getLast?
      = some ⟨"user", userMessage⟩ :=
  buildMessages_getLast charPrompt c contextMessages userMessage language
    provider

/-- A validated message list has a head with non-blank content. -/
lemma validate_head_content (m : Msg) (l : List Msg)
    (h : validateMessageStructure (m :: l) = true) : pyStrip m.content ≠ "" := by
  simp only [validateMessageStructure, List.all_cons, Bool.and_eq_true,
    Bool.not_eq_true', beq_eq_false_iff_ne, ne_eq] at h
  exact h.1.2

/-- A string whose strip is non-blank is itself non-empty. -/
lemma ne_empty_of_strip_ne_empty (s : String) (h : pyStrip s ≠ "") : s ≠ "" := by
  intro he
  subst he
  exact h (by decide)

/-- C10: `build_messages` is total and always returns a well-formed list: the
head is a system entry with non-empty content, the last entry is the user
message, and whenever the final validation raises, the result is exactly the
minimal two-entry safe structure built from the character name and the user
message. -/
theorem build_messages_total_wellformed (charPrompt : Option String)
    (c : Character) (contextMessages : List Msg)
    (userMessage language provider : String) :
    (∃ content,
        (buildMessages charPrompt c contextMessages userMessage language
            provider).head? = some ⟨"system", content⟩ ∧ content ≠ "")
    ∧ (buildMessages charPrompt c contextMessages userMessage language
        provider).getLast? = some ⟨"user", userMessage⟩
    ∧ (validateMessageStructure (candidateMessages charPrompt c
          contextMessages userMessage language provider) = false →
        buildMessages charPrompt c contextMessages userMessage language
            provider
          = [⟨"system", "You are " ++ c.name ++ ", a helpful AI assistant."⟩,
             ⟨"user", userMessage⟩]) := by
  refine ⟨?_, buildMessages_getLast charPrompt c contextMessages userMessage
    language provider, ?_⟩
  · cases hv : validateMessageStructure (candidateMessages charPrompt c
        contextMessages userMessage language provider) with
    | true =>
      refine ⟨getSystemPrompt charPrompt c language provider, ?_, ?_⟩
      · rw [buildMessages_eq_candidate, hv]
        simp only [if_true]
        simp only [candidateMessages, List.cons_append, List.head?_cons]
      · refine ne_empty_of_strip_ne_empty _ ?_
        have hv' := hv
        rw [show candidateMessages charPrompt c contextMessages userMessage
              language provider
            = (⟨"system", getSystemPrompt charPrompt c language provider⟩ ::
                (optimizeContextForProvider contextMessages provider
                    (getSystemPrompt charPrompt c language provider)
                  ++ [⟨"user", userMessage⟩])) from rfl] at hv'
        exact validate_head_content _ _ hv'
    | false =>
      refine ⟨"You are " ++ c.name ++ ", a helpful AI assistant.", ?_, ?_⟩
      · rw [buildMessages_eq_candidate, hv]
        simp [fallbackMessages]
      · intro he
        have hlen := congrArg String.length he
        rw [String.length_append, String.length_append] at hlen
        have h1 : ("You are " : String).length = 8 := rfl
        have h2 : (", a helpful AI assistant." : String).length = 25 := rfl
        have h3 : ("" : String).length = 0 := rfl
        rw [h1, h2, h3] at hlen
        omega
  · intro hv
    rw [buildMessages_eq_candidate, hv]
    simp [fallbackMessages]

/-- The sample character used for concrete witnesses. -/
def aanya : Character := ⟨1, "Aanya", "friendly", false⟩

set_option maxRecDepth 100000 in
/-- Witness for C10 at a concrete failing input: an empty user message makes
the final validation raise, and the result is exactly the two-entry safe
structure. -/
theorem build_messages_total_wellformed_witness :
    validateMessageStructure
        (candidateMessages none aanya [] "" "en" "groq") = false
    ∧ buildMessages none aanya [] "" "en" "groq"
        = [⟨"system", "You are Aanya, a helpful AI assistant."⟩,
           ⟨"user", ""⟩] := by
  have hv : validateMessageStructure
      (candidateMessages none aanya [] "" "en" "groq") = false := by decide
  exact ⟨hv,
    (build_messages_total_wellformed none aanya [] "" "en" "groq").2.2 hv⟩

/-- Estimated token total of a message list, accumulated as in the selection
loop of `_optimize_context_for_provider`. -/
def tokSum (l : List Msg) : Int :=
  (l.map (fun m => (estTokens m.content : Int))).sum

lemma tokSum_cons (m : Msg) (l : List Msg) :
    tokSum (m :: l) = (estTokens m.content : Int) + tokSum l := by
  simp [tokSum]

lemma tokSum_nonneg (l : List Msg) : 0 ≤ tokSum l := by
  induction l with
  | nil => simp [tokSum]
  | cons m rest ih =>
    rw [tokSum_cons]
    have h1 : (0 : Int) ≤ (estTokens m.content : Int) := Int.natCast_nonneg _
    omega

lemma tokSum_append (l₁ l₂ : List Msg) :
    tokSum (l₁ ++ l₂) = tokSum l₁ + tokSum l₂ := by
  simp [tokSum]

lemma tokSum_reverse (l : List Msg) : tokSum l.reverse = tokSum l := by
  rw [tokSum, tokSum, List.map_reverse, List.sum_reverse]

lemma tokSum_take_mono (l : List Msg) {m n : Nat} (h : m ≤ n) :
    tokSum (l.take m) ≤ tokSum (l.take n) := by
  have hd : (l.take n).take m ++ (l.take n).drop m = l.take n :=
    List.take_append_drop m (l.take n)
  have ht : (l.take n).take m = l.take m := by
    rw [List.take_take, Nat.min_eq_left h]
  have hnn := tokSum_nonneg ((l.take n).drop m)
  calc tokSum (l.take m) = tokSum ((l.take n).take m) := by rw [ht]
    _ ≤ tokSum ((l.take n).take m) + tokSum ((l.take n).drop m) := by omega
    _ = tokSum (l.take n) := by rw [← tokSum_append, hd]

lemma selectNewest_isPrefix (a : Int) (l : List Msg) :
    ∀ c : Int, selectNewest a l c <+: l := by
  induction l with
  | nil => intro c; simp [selectNewest]
  | cons m rest ih =>
    intro c
    rw [selectNewest]
    split
    · exact List.nil_prefix
    · exact List.cons_prefix_cons.mpr ⟨rfl, ih _⟩

lemma selectNewest_nil_or_bounded (a : Int) (l : List Msg) :
    ∀ c : Int, selectNewest a l c = [] ∨
      c + tokSum (selectNewest a l c) ≤ a := by
  induction l with
  | nil => intro c; left; rfl
  | cons m rest ih =>
    intro c
    rw [selectNewest]
    by_cases hc : c + (estTokens m.content : Int) > a
    · rw [if_pos hc]; left; rfl
    · rw [if_neg hc]
      right
      rw [tokSum_cons]
      rcases ih (c + (estTokens m.content : Int)) with h0 | h0
      · rw [h0]
        have : tokSum ([] : List Msg) = 0 := rfl
        omega
      · omega

lemma selectNewest_maximal (a : Int) (l : List Msg) :
    ∀ c : Int, (selectNewest a l c).length < l.length →
      a < c + tokSum (l.take ((selectNewest a l c).length + 1)) := by
  induction l with
  | nil => intro c h; simp [selectNewest] at h
  | cons m rest ih =>
    intro c h
    rw [selectNewest] at h ⊢
    by_cases hc : c + (estTokens m.content : Int) > a
    · rw [if_pos hc] at h ⊢
      simp only [List.length_nil, Nat.zero_add, List.take_succ_cons,
        List.take_zero, tokSum_cons]
      have : tokSum ([] : List Msg) = 0 := rfl
      omega
    · rw [if_neg hc] at h ⊢
      simp only [List.length_cons, Nat.add_lt_add_iff_right] at h
      have hrec := ih (c + (estTokens m.content : Int)) h
      simp only [List.length_cons, List.take_succ_cons, tokSum_cons]
      omega

/-- A context turn of 2600 characters, an estimated 650 tokens. -/
def demoTurn : Msg := ⟨"user", String.mk (List.replicate 2600 'x')⟩

/-- Twenty stored turns; with the groq budget of `2000 - 0 - 50 = 1950`
tokens (empty system prompt) only three 650-token turns fit. -/
def demoTwentyTurns : List Msg := List.replicate 20 demoTurn

lemma demoTurn_length : (String.mk (List.replicate 2600 'x')).length = 2600 := by
  rw [String.length]
  exact List.length_replicate 2600 'x'

lemma demoTurn_tokens : (estTokens demoTurn.content : Int) = 650 := by
  have h : estTokens demoTurn.content = 650 := by
    rw [estTokens,
      show demoTurn.content = String.mk (List.replicate 2600 'x') from rfl,
      demoTurn_length]
  rw [h]
  norm_num

lemma selectNewest_demo_step (k : Nat) (c : Int) (hc : c + 650 ≤ 1950) :
    selectNewest 1950 (List.replicate (k + 1) demoTurn) c
      = demoTurn ::
          selectNewest 1950 (List.replicate k demoTurn) (c + 650) := by
  rw [List.replicate_succ, selectNewest, demoTurn_tokens, if_neg (by omega)]

lemma selectNewest_demo_stop (k : Nat) :
    selectNewest 1950 (List.replicate (k + 1) demoTurn) 1950 = [] := by
  rw [List.replicate_succ, selectNewest, demoTurn_tokens, if_pos (by omega)]

lemma demo_drop : demoTwentyTurns.drop 17 = List.replicate 3 demoTurn := by
  rw [demoTwentyTurns, show (20 : Nat) = 17 + 3 from rfl, List.replicate_add]
  rw [show (17 : Nat) = (List.replicate 17 demoTurn).length from
    (List.length_replicate 17 demoTurn).symm]
  exact List.drop_left _ _

lemma demo_opt : optimizeContextForProvider demoTwentyTurns "groq" ""
    = demoTwentyTurns.drop 17 := by
  have hav : availableContextTokens "groq" "" = 1950 := by decide
  have h1 : optimizeContextForProvider demoTwentyTurns "groq" ""
      = (selectNewest 1950 demoTwentyTurns.reverse 0).reverse := by
    rw [optimizeContextForProvider, hav]
  rw [h1, show demoTwentyTurns.reverse = List.replicate 20 demoTurn from by
    rw [demoTwentyTurns, List.reverse_replicate]]
  rw [show (20 : Nat) = 19 + 1 from rfl,
    selectNewest_demo_step 19 0 (by omega)]
  rw [show (19 : Nat) = 18 + 1 from rfl,
    selectNewest_demo_step 18 (0 + 650) (by omega)]
  rw [show (18 : Nat) = 17 + 1 from rfl,
    selectNewest_demo_step 17 (0 + 650 + 650) (by omega)]
  rw [show (0 + 650 + 650 + 650 : Int) = 1950 from by norm_num]
  rw [show (17 : Nat) = 16 + 1 from rfl, selectNewest_demo_stop 16]
  rw [demo_drop]
  rfl

/-- C3: `_optimize_context_for_provider` returns a contiguous suffix of the
input (the most recent messages) in the original oldest-first order; the
accepted suffix fits the provider budget (unless empty), and no longer
suffix fits it (the greedy newest-to-oldest scan); concretely, with 20
stored turns and a budget that only fits 3, exactly the 3 most recent turns
are returned, oldest first. -/
theorem optimize_context_recent_suffix (contextMessages : List Msg)
    (provider systemPrompt : String) :
    optimizeContextForProvider contextMessages provider systemPrompt
        <:+ contextMessages
    ∧ (optimizeContextForProvider contextMessages provider systemPrompt = []
        ∨ tokSum (optimizeContextForProvider contextMessages provider
              systemPrompt)
            ≤ availableContextTokens provider systemPrompt)
    ∧ (∀ s : List Msg, s <:+ contextMessages →
        tokSum s ≤ availableContextTokens provider systemPrompt →
        s.length ≤ (optimizeContextForProvider contextMessages provider
            systemPrompt).length)
    ∧ optimizeContextForProvider demoTwentyTurns "groq" ""
        = demoTwentyTurns.drop 17
    ∧ (demoTwentyTurns.drop 17).length = 3 := by
  set a := availableContextTokens provider systemPrompt with ha
  have hopt : optimizeContextForProvider contextMessages provider systemPrompt
      = (selectNewest a contextMessages.reverse 0).reverse := rfl
  refine ⟨?_, ?_, ?_, ?_, ?_⟩
  · have hp := selectNewest_isPrefix a contextMessages.reverse 0
    have h1 := List.reverse_suffix.mpr hp
    rw [List.reverse_reverse] at h1
    rw [hopt]
    exact h1
  · rcases selectNewest_nil_or_bounded a contextMessages.reverse 0 with h0 | h0
    · left; rw [hopt, h0]; rfl
    · right
      rw [hopt, tokSum_reverse]
      omega
  · intro s hs hsum
    by_contra hlt
    push_neg at hlt
    rw [hopt, List.length_reverse] at hlt
    have hsel := selectNewest_maximal a contextMessages.reverse 0 ?_
    · have hsp : s.reverse <+: contextMessages.reverse := by
        rw [List.reverse_prefix]
        exact hs
      have hse : s.reverse = contextMessages.reverse.take s.reverse.length :=
        List.prefix_iff_eq_take.mp hsp
      have hmono : tokSum (contextMessages.reverse.take
            ((selectNewest a contextMessages.reverse 0).length + 1))
          ≤ tokSum (contextMessages.reverse.take s.length) := by
        apply tokSum_take_mono
        omega
      have hss : tokSum (contextMessages.reverse.take s.length) = tokSum s := by
        rw [show contextMessages.reverse.take s.length = s.reverse by
          rw [hse, List.length_reverse]]
        exact tokSum_reverse s
      rw [hss] at hmono
      omega
    · have hsl := hs.length_le
      rw [List.length_reverse]
      omega
  · exact demo_opt
  · rw [demo_drop, List.length_replicate]

/-- Witness for C3: the greedy bound applied at a concrete one-message
context that fits the budget, forcing the result to keep it. -/
theorem optimize_context_recent_suffix_witness :
    1 ≤ (optimizeContextForProvider [⟨"user", "abcd"⟩] "groq" "").length :=
  (optimize_context_recent_suffix [⟨"user", "abcd"⟩] "groq" "").2.2.1
    [⟨"user", "abcd"⟩] (List.suffix_refl _) (by decide)

/-- Probing an empty provider name resolves like probing the current
provider (Python `provider or self._current_provider`). -/
lemma testConnection_empty (probe : String → Bool) (st : LLMState) :
    testConnection probe st (some "")
      = testConnection probe st (some st.currentProvider) := by
  by_cases hc : st.currentProvider = "" <;>
    simp [testConnection, resolveClient, hc]

/-- C4: failover behavior of `get_available_provider`.  If the connection
test of the current provider fails and the configured (non-empty) fallback
provider's test succeeds, the fallback's name is returned, which differs
from the current provider's.  And a `None` result implies the tests of the
current provider, of the truthy fallback, and of every configured provider
all failed. -/
theorem get_available_provider_failover (probe : String → Bool)
    (st : LLMState) (fb : String) :
    (testConnection probe st (some st.currentProvider) = false →
      st.fallbackProvider = some fb → fb ≠ "" →
      testConnection probe st (some fb) = true →
      getAvailableProvider probe st = some fb ∧ fb ≠ st.currentProvider)
    ∧ (getAvailableProvider probe st = none →
        testConnection probe st (some st.currentProvider) = false
        ∧ (∀ f, fallbackTruthy st = some f →
            testConnection probe st (some f) = false)
        ∧ ∀ p ∈ st.clients, testConnection probe st (some p) = false) := by
  constructor
  · intro h1 h2 h3 h4
    have hfb : fallbackTruthy st = some fb := by
      simp [fallbackTruthy, h2, h3]
    constructor
    · rw [getAvailableProvider, h1, hfb]
      simp [h4]
    · intro he
      rw [he] at h4
      rw [h1] at h4
      exact Bool.false_ne_true h4
  · intro hnone
    have h1 : testConnection probe st (some st.currentProvider) = false := by
      by_contra hb
      rw [getAvailableProvider] at hnone
      rw [Bool.not_eq_false] at hb
      rw [hb] at hnone
      simp at hnone
    refine ⟨h1, ?_, ?_⟩
    · intro f hf
      by_contra hb
      rw [Bool.not_eq_false] at hb
      rw [getAvailableProvider, h1, hf] at hnone
      simp only [Bool.false_eq_true, if_false] at hnone
      have hnone' : (if testConnection probe st (some f) = true then some f
          else tryRemainingProviders probe st) = none := hnone
      rw [hb] at hnone'
      simp at hnone'
    · have hrem : tryRemainingProviders probe st = none := by
        rw [getAvailableProvider, h1] at hnone
        simp only [Bool.false_eq_true, if_false] at hnone
        cases hft : fallbackTruthy st with
        | none => rw [hft] at hnone; exact hnone
        | some f =>
          rw [hft] at hnone
          have hnone' : (if testConnection probe st (some f) = true then some f
              else tryRemainingProviders probe st) = none := hnone
          cases hcf : testConnection probe st (some f) with
          | false => rw [hcf] at hnone'; simpa using hnone'
          | true => rw [hcf] at hnone'; simp at hnone'
      intro p hp
      by_cases hcur : p = st.currentProvider
      · rw [hcur]; exact h1
      · by_cases hfb : st.fallbackProvider = some p
        · by_cases hemp : p = ""
          · rw [hemp, testConnection_empty]
            exact h1
          · have hft : fallbackTruthy st = some p := by
              simp [fallbackTruthy, hfb, hemp]
            rw [getAvailableProvider, h1] at hnone
            simp only [Bool.false_eq_true, if_false] at hnone
            rw [hft] at hnone
            have hnone' : (if testConnection probe st (some p) = true then some p
                else tryRemainingProviders probe st) = none := hnone
            cases hcf : testConnection probe st (some p) with
            | false => rfl
            | true => rw [hcf] at hnone'; simp at hnone'
        · have hmem : p ∈ st.clients.filter (fun q =>
              !(q == st.currentProvider)
                && !(st.fallbackProvider == some q)) := by
            rw [List.mem_filter]
            refine ⟨hp, ?_⟩
            simp only [Bool.and_eq_true, Bool.not_eq_true', beq_eq_false_iff_ne,
              ne_eq]
            exact ⟨hcur, fun hc => hfb (by simpa using hc)⟩
          have := List.find?_eq_none.mp hrem p hmem
          simpa using this

/-- Sample provider state: both providers configured, groq current, openai
fallback. -/
def demoState : LLMState := ⟨["groq", "openai"], "groq", some "openai"⟩

/-- Witness for C4: with groq failing its probe and openai passing,
`get_available_provider` returns openai; and with every probe failing and
the result `None`, the current provider's test indeed failed. -/
theorem get_available_provider_failover_witness :
    (getAvailableProvider (fun p => p == "openai") demoState = some "openai"
      ∧ "openai" ≠ "groq")
    ∧ testConnection (fun _ => false) demoState (some "groq") = false := by
  constructor
  · exact (get_available_provider_failover (fun p => p == "openai") demoState
      "openai").1 (by decide) rfl (by decide) (by decide)
  · exact ((get_available_provider_failover (fun _ => false) demoState
      "openai").2 (by decide)).1

/-- The attempt trace of the retry loop never exceeds the remaining fuel. -/
lemma generateLoop_trace_le_fuel (attempt : Nat → String → Option (List String))
    (probe : String → Bool) (st : LLMState) :
    ∀ (fuel retries : Nat) (provider : String),
      (generateLoop attempt probe st fuel retries provider).2.length ≤ fuel := by
  intro fuel
  induction fuel with
  | zero => intro r p; simp [generateLoop]
  | succ n ih =>
    intro r p
    rw [generateLoop]
    cases hA : attempt r p with
    | some chunks => simp
    | none =>
      simp only []
      by_cases hr : r + 1 ≤ maxRetriesChat
      · rw [if_pos hr]
        by_cases hsw : p = st.currentProvider ∧ (fallbackTruthy st).isSome
        · rw [if_pos hsw]
          have := ih (r + 1) ((fallbackTruthy st).getD p)
          simp only [List.length_cons]
          omega
        · rw [if_neg hsw]
          cases hap : getAvailableProvider probe st with
          | some ap =>
            simp only []
            by_cases hne : ap ≠ p
            · rw [if_pos hne]
              have := ih (r + 1) ap
              simp only [List.length_cons]
              omega
            · rw [if_neg hne]; simp
          | none => simp
      · rw [if_neg hr]; simp

/-- When every completion attempt raises, the retry loop yields exactly one
`GENERATION_FAILED` error event, whose retry count equals the number of
attempts performed on top of the entry count. -/
lemma generateLoop_all_failed (attempt : Nat → String → Option (List String))
    (probe : String → Bool) (st : LLMState)
    (hfail : ∀ k p', attempt k p' = none) :
    ∀ (fuel retries : Nat) (provider : String),
      ∃ p, (generateLoop attempt probe st fuel retries provider).1
        = [.genError "GENERATION_FAILED" p
            (retries +
              (generateLoop attempt probe st fuel retries provider).2.length)] := by
  intro fuel
  induction fuel with
  | zero => intro r p; exact ⟨p, rfl⟩
  | succ n ih =>
    intro r p
    rw [generateLoop, hfail r p]
    simp only []
    by_cases hr : r + 1 ≤ maxRetriesChat
    · rw [if_pos hr]
      by_cases hsw : p = st.currentProvider ∧ (fallbackTruthy st).isSome
      · rw [if_pos hsw]
        obtain ⟨q, hq⟩ := ih (r + 1) ((fallbackTruthy st).getD p)
        refine ⟨q, ?_⟩
        simp only [List.length_cons]
        rw [hq]
        congr 2
        omega
      · rw [if_neg hsw]
        cases hap : getAvailableProvider probe st with
        | some ap =>
          simp only []
          by_cases hne : ap ≠ p
          · rw [if_pos hne]
            obtain ⟨q, hq⟩ := ih (r + 1) ap
            refine ⟨q, ?_⟩
            simp only [List.length_cons]
            rw [hq]
            congr 2
            omega
          · rw [if_neg hne]
            exact ⟨p, by simp⟩
        | none => exact ⟨p, by simp⟩
    · rw [if_neg hr]
      exact ⟨p, by simp⟩

/-- With fuel left, the first attempted provider is the entry provider. -/
lemma generateLoop_trace_head (attempt : Nat → String → Option (List String))
    (probe : String → Bool) (st : LLMState) (fuel retries : Nat)
    (provider : String) :
    (generateLoop attempt probe st (fuel + 1) retries provider).2.getD 0 ""
      = provider := by
  rw [generateLoop]
  cases hA : attempt retries provider with
  | some chunks => rfl
  | none =>
    simp only []
    by_cases hr : retries + 1 ≤ maxRetriesChat
    · rw [if_pos hr]
      by_cases hsw : provider = st.currentProvider ∧ (fallbackTruthy st).isSome
      · rw [if_pos hsw]
        rfl
      · rw [if_neg hsw]
        cases hap : getAvailableProvider probe st with
        | some ap =>
          simp only []
          by_cases hne : ap ≠ provider
          · rw [if_pos hne]
            rfl
          · rw [if_neg hne]
            rfl
        | none => rfl
    · rw [if_neg hr]
      rfl

/-- C8: the generation step attempts the completion at most 3 times in total
(the first attempt plus up to `max_retries = 2` retries); when every attempt
raises, the emitted events are exactly one `GENERATION_FAILED` error whose
retry counter equals the number of attempts made; and when the first
attempt was made on the current provider and failed, the second attempt (if
any) goes to the paired fallback provider. -/
theorem generation_retries_bounded (attempt : Nat → String → Option (List String))
    (probe : String → Bool) (st : LLMState) (provider fb : String) :
    (generateAiResponse attempt probe st provider).2.length ≤ 3
    ∧ ((∀ k p', attempt k p' = none) →
        ∃ p, (generateAiResponse attempt probe st provider).1
          = [.genError "GENERATION_FAILED" p
              ((generateAiResponse attempt probe st provider).2.length)])
    ∧ (provider = st.currentProvider → fallbackTruthy st = some fb →
        2 ≤ (generateAiResponse attempt probe st provider).2.length →
        (generateAiResponse attempt probe st provider).2.getD 1 "" = fb) := by
  refine ⟨generateLoop_trace_le_fuel attempt probe st 3 0 provider, ?_, ?_⟩
  · intro hfail
    obtain ⟨q, hq⟩ := generateLoop_all_failed attempt probe st hfail 3 0 provider
    exact ⟨q, by simpa using hq⟩
  · intro hcur hfb h2
    rw [generateAiResponse] at h2 ⊢
    rw [generateLoop] at h2 ⊢
    cases hA : attempt 0 provider with
    | some chunks =>
      rw [hA] at h2
      simp at h2
    | none =>
      rw [hA] at h2
      simp only [] at h2 ⊢
      have hr : 0 + 1 ≤ maxRetriesChat := by decide
      rw [if_pos hr] at h2 ⊢
      have hsw : provider = st.currentProvider ∧ (fallbackTruthy st).isSome :=
        ⟨hcur, by rw [hfb]; rfl⟩
      rw [if_pos hsw] at h2 ⊢
      have hget : (fallbackTruthy st).getD provider = fb := by
        rw [hfb]; rfl
      rw [hget] at h2 ⊢
      simp only [List.getD_cons_succ]
      exact generateLoop_trace_head attempt probe st 1 (0 + 1) fb

/-- Witness for C8: with every attempt failing and both providers
configured, exactly three attempts happen (groq, fallback openai, then the
probe-selected provider), one terminal `GENERATION_FAILED` error is emitted
carrying retry count 3, and the second attempt went to the fallback. -/
theorem generation_retries_bounded_witness :
    (∃ p, (generateAiResponse (fun _ _ => none) (fun _ => true) demoState
          "groq").1
        = [.genError "GENERATION_FAILED" p
            ((generateAiResponse (fun _ _ => none) (fun _ => true) demoState
                "groq").2.length)])
    ∧ (generateAiResponse (fun _ _ => none) (fun _ => true) demoState
        "groq").2.getD 1 "" = "openai" := by
  constructor
  · exact (generation_retries_bounded (fun _ _ => none) (fun _ => true)
      demoState "groq" "openai").2.1 (fun _ _ => rfl)
  · exact (generation_retries_bounded (fun _ _ => none) (fun _ => true)
      demoState "groq" "openai").2.2 rfl (by decide) (by decide)

/-- An all-successful run environment: character, conversation and provider
resolve, generation yields no error. -/
def demoEnv : ChatEnv := ⟨some aanya, some 1, some "groq", []⟩

/-- C7 counterexample: on an all-successful run the route-level SSE
generator delivers the `{"type": "end"}` marker event *after* the terminal
`complete` event, so the delivered stream does not terminate immediately
after the terminal event. -/
theorem stream_event_after_terminal_counterexample :
    routeSseGenerator (some aanya) demoEnv
      = [ChatEvent.metadata, ChatEvent.complete, ChatEvent.endMarker]
    ∧ isTerminal ChatEvent.endMarker = false
    ∧ (routeSseGenerator (some aanya) demoEnv).getLast?
        = some ChatEvent.endMarker :=
  ⟨rfl, rfl, rfl⟩

/-- The relayed generation events contain no terminal event in the clean
case, and exactly one trailing error event in the aborted case. -/
lemma relayGeneration_events (gen : List GenEvent) :
    ((relayGeneration gen).2 = false
      ∧ (relayGeneration gen).1.countP isTerminal = 0)
    ∨ ((relayGeneration gen).2 = true
      ∧ (relayGeneration gen).1.countP isTerminal = 1
      ∧ ∃ code pre, (relayGeneration gen).1 = pre ++ [.errorEv code]) := by
  induction gen with
  | nil => left; exact ⟨rfl, rfl⟩
  | cons e rest ih =>
    cases e with
    | content s p =>
      rw [relayGeneration]
      rcases ih with ⟨h2, hc⟩ | ⟨h2, hc, code, pre, hpre⟩
      · left
        refine ⟨h2, ?_⟩
        simp [List.countP_cons, isTerminal, hc]
      · right
        refine ⟨h2, ?_, code, .content s :: pre, ?_⟩
        · simp [List.countP_cons, isTerminal, hc]
        · simp [hpre]
    | genError code p r =>
      rw [relayGeneration]
      right
      exact ⟨rfl, by simp [List.countP_cons, isTerminal], code, [], by simp⟩

/-- Every `process_message` run yields exactly one terminal event, and it is
the last event of the run. -/
lemma processMessage_one_terminal (env : ChatEnv) :
    (processMessage env).countP isTerminal = 1
    ∧ ∃ e, (processMessage env).getLast? = some e ∧ isTerminal e = true := by
  rw [processMessage]
  cases env.character with
  | none => exact ⟨rfl, .errorEv "CHARACTER_NOT_SELECTED", rfl, rfl⟩
  | some c =>
    cases env.conversationId with
    | none => exact ⟨rfl, .errorEv "CONVERSATION_ERROR", rfl, rfl⟩
    | some cid =>
      cases env.provider with
      | none => exact ⟨rfl, .errorEv "SERVICE_UNAVAILABLE", rfl, rfl⟩
      | some p =>
        simp only []
        rcases relayGeneration_events env.genEvents with
          ⟨h2, hc⟩ | ⟨h2, hc, code, pre, hpre⟩
        · rw [h2, if_neg (by simp)]
          constructor
          · simp [List.countP_cons, List.countP_append, isTerminal, hc]
          · refine ⟨.complete, ?_, rfl⟩
            rw [show ChatEvent.metadata :: (relayGeneration env.genEvents).1
                  ++ [ChatEvent.complete]
                = (ChatEvent.metadata :: (relayGeneration env.genEvents).1)
                  ++ [ChatEvent.complete] from rfl]
            exact List.getLast?_concat _
        · rw [h2, if_pos rfl]
          constructor
          · simp [List.countP_cons, isTerminal, hc]
          · refine ⟨.errorEv code, ?_, rfl⟩
            rw [hpre]
            rw [show ChatEvent.metadata :: (pre ++ [ChatEvent.errorEv code])
                = (ChatEvent.metadata :: pre) ++ [ChatEvent.errorEv code]
                from rfl]
            exact List.getLast?_concat _

/-- `sse_chat_generator` is the identity on terminal-free streams, and on a
stream containing a terminal event it delivers exactly one terminal event,
as its last event. -/
lemma sseChatGenerator_cut (l : List ChatEvent) :
    (l.countP isTerminal = 0 → sseChatGenerator l = l)
    ∧ (1 ≤ l.countP isTerminal →
        (sseChatGenerator l).countP isTerminal = 1
        ∧ ∃ e, (sseChatGenerator l).getLast? = some e ∧ isTerminal e = true) := by
  induction l with
  | nil =>
    constructor
    · intro _; rfl
    · intro h; simp at h
  | cons e rest ih =>
    rw [sseChatGenerator]
    cases he : isTerminal e with
    | true =>
      rw [if_pos rfl]
      constructor
      · intro h
        rw [List.countP_cons, he] at h
        simp at h
      · intro _
        exact ⟨by simp [List.countP_cons, he], e, rfl, he⟩
    | false =>
      rw [if_neg (by simp)]
      constructor
      · intro h
        rw [List.countP_cons, he] at h
        simp only [Bool.false_eq_true, if_false, Nat.add_zero] at h
        rw [ih.1 h]
      · intro h
        rw [List.countP_cons, he] at h
        simp only [Bool.false_eq_true, if_false, Nat.add_zero] at h
        obtain ⟨hcnt, e', hlast, hterm⟩ := ih.2 h
        refine ⟨by simp [List.countP_cons, he, hcnt], e', ?_, hterm⟩
        have hne : sseChatGenerator rest ≠ [] := by
          intro hnil
          rw [hnil] at hlast
          simp at hlast
        cases hsse : sseChatGenerator rest with
        | nil => exact absurd hsse hne
        | cons b t =>
          rw [hsse] at hlast
          rw [List.getLast?_cons_cons]
          exact hlast

/-- C7 amended: the chat pipeline emits exactly one terminal (`complete` or
`error`) event and it is the last event of `process_message`'s stream;
`sse_chat_generator` delivers it as the final event and sends nothing after
it; the route-level `sse_generator` in `routes/chat.py`, however, appends
exactly one non-terminal `end` marker after the terminal event (or emits a
single terminal error when no character is selected), so its delivered
stream still contains exactly one terminal event. -/
theorem terminal_event_exactly_once_amended (routeCharacter : Option Character)
    (env : ChatEnv) :
    ((processMessage env).countP isTerminal = 1
      ∧ ∃ e, (processMessage env).getLast? = some e ∧ isTerminal e = true)
    ∧ ((sseChatGenerator (processMessage env)).countP isTerminal = 1
      ∧ ∃ e, (sseChatGenerator (processMessage env)).getLast? = some e
          ∧ isTerminal e = true)
    ∧ (routeSseGenerator routeCharacter env
          = [.errorEv "CHARACTER_NOT_SELECTED"]
        ∨ routeSseGenerator routeCharacter env
          = processMessage env ++ [.endMarker])
    ∧ (routeSseGenerator routeCharacter env).countP isTerminal = 1 := by
  obtain ⟨hc, he, hlast, hterm⟩ := processMessage_one_terminal env
  refine ⟨⟨hc, he, hlast, hterm⟩, ?_, ?_, ?_⟩
  · exact (sseChatGenerator_cut (processMessage env)).2 (by omega)
  · cases routeCharacter with
    | none => left; rfl
    | some c => right; rfl
  · cases routeCharacter with
    | none => rfl
    | some c =>
      rw [show routeSseGenerator (some c) env
          = processMessage env ++ [.endMarker] from rfl]
      simp [List.countP_append, hc, isTerminal]

/-- A premium-gated character, the only row of the characters table in the
C6 failing input. -/
def premiumChar : Character := ⟨1, "Kiara", "playful", true⟩

/-- C6 failing input: `ChatService._get_user_character` resolves (and
caches) the premium character for any user - it never consults the premium
flag or the subscription tier, and `ChatService.switch_character` caches it
too; the cached selection is then served by
`CharacterService.get_user_selected_character` with no tier check either.
`CharacterService.select_character`, by contrast, implements the intended
gate and answers `PREMIUM_REQUIRED` for a non-premium user. -/
theorem premium_character_resolved_for_free_user :
    (getUserCharacter [premiumChar] none (some 1)).1 = some premiumChar
    ∧ (getUserCharacter [premiumChar] none (some 1)).2 = some 1
    ∧ (getUserSelectedCharacter [premiumChar] (some 1)).1 = some premiumChar
    ∧ (chatSwitchCharacter [premiumChar] none 1 true).1 = true
    ∧ canBeUsedByUser premiumChar false = false
    ∧ (selectCharacter [premiumChar] none 1 false true).1
        = SelectResult.premiumRequired :=
  ⟨rfl, rfl, rfl, rfl, rfl, rfl⟩

/-- A sample conversation row for the C9 input. -/
def demoConversation : Conversation := ⟨1, 2, 3, 0⟩

/-- C9 counterexample: a storage failure during conversation
lookup/creation is caught and returned as a `None` result (`.ok none`), and
a storage failure during recent-turn retrieval is returned as an empty list
(`.ok []`); neither is propagated to the caller as an error. -/
theorem storage_error_swallowed_counterexample :
    getOrCreateConversationR (.error "db down") (.ok demoConversation)
        = .ok none
    ∧ (getOrCreateConversationR (.error "db down")
        (.ok demoConversation)).isOk = true
    ∧ getMessageContext 5 (.ok none) (.error "db down") (.ok none)
        (.error "db down") = .ok [] :=
  ⟨rfl, rfl, rfl⟩

/-- A conversation-level cache read that misses (or fails) contributes no
context. -/
lemma convLevelContext_miss (limit : Nat)
    (convLookup : Except String (Option Conversation))
    (convCacheRaw : Except String (Option (List MessageRow)))
    (h : truthyList (redisGetCache convCacheRaw) = none) :
    convLevelContext limit convLookup convCacheRaw = none := by
  unfold convLevelContext
  split
  · cases hk : getConversationCacheKey convLookup with
    | some k =>
      simp only []
      rw [h]
    | none => rfl
  · rfl

/-- C9 amended: the context store never lets a failure escape to its caller.
Storage failures during conversation lookup/creation surface as a `None`
return, and a failing recent-turn SELECT as an empty list - not as a raised
`StorageError`; cache-layer failures are swallowed inside the cache service
and treated as a miss, falling through to persistent storage exactly as a
missing cache entry would. -/
theorem context_store_error_handling_amended
    (lookup : Except String (Option Conversation))
    (create : Except String Conversation) (limit : Nat)
    (ctxCacheRaw : Except String (Option (List Msg)))
    (convLookup : Except String (Option Conversation))
    (convCacheRaw : Except String (Option (List MessageRow)))
    (dbRead : Except String (List MessageRow)) (e1 e2 e3 : String) :
    (getOrCreateConversationR lookup create).isOk = true
    ∧ getOrCreateConversationR (.error e1) create = .ok none
    ∧ (getMessageContext limit ctxCacheRaw convLookup convCacheRaw
        dbRead).isOk = true
    ∧ getMessageContext limit (.error e1) convLookup (.error e2) dbRead
        = getMessageContext limit (.ok none) convLookup (.ok none) dbRead
    ∧ getMessageContext limit (.error e1) convLookup (.error e2) (.error e3)
        = .ok [] := by
  refine ⟨?_, rfl, ?_, ?_, ?_⟩
  · cases lookup with
    | error e => rfl
    | ok v =>
      cases v with
      | some conv => rfl
      | none => cases create <;> rfl
  · unfold getMessageContext
    cases truthyList (redisGetCache ctxCacheRaw) with
    | some cached => rfl
    | none =>
      simp only []
      cases convLevelContext limit convLookup convCacheRaw with
      | some ctx => rfl
      | none =>
        simp only []
        cases dbRead <;> rfl
  · unfold getMessageContext
    rw [show truthyList (redisGetCache
        (.error e1 : Except String (Option (List Msg)))) = none from rfl,
      show truthyList (redisGetCache
        (.ok none : Except String (Option (List Msg)))) = none from rfl]
    simp only []
    rw [convLevelContext_miss limit convLookup (.error e2) rfl,
      convLevelContext_miss limit convLookup (.ok none) rfl]
  · unfold getMessageContext
    rw [show truthyList (redisGetCache
        (.error e1 : Except String (Option (List Msg)))) = none from rfl]
    simp only []
    rw [convLevelContext_miss limit convLookup (.error e2) rfl]

/-- A 600-character persona name, the payload of the C5 failing input. -/
def longName : String := String.mk (List.replicate 600 'a')

/-- A persona instruction of 611 characters (estimated 152 tokens, over the
groq budget of 150): a single line that matches the name-extraction pattern
of `_create_concise_prompt` with a 600-character name. -/
def oversizedPrompt : String := "You are " ++ longName ++ ", z"

set_option maxRecDepth 1000000 in
/-- C5 failing input evaluated: the instruction exceeds the groq budget, so
`_optimize_for_provider` compresses it with `_create_concise_prompt`, but
the compressed instruction embeds the extracted 600-character name and its
estimate still exceeds `max_prompt_tokens` - the compression gives no
budget guarantee. -/
theorem concise_prompt_exceeds_budget :
    maxPromptTokens "groq" < estTokens oversizedPrompt
    ∧ optimizeForProvider oversizedPrompt "groq"
        = createConcisePrompt oversizedPrompt
    ∧ maxPromptTokens "groq"
        < estTokens (optimizeForProvider oversizedPrompt "groq") := by
  refine ⟨by decide, by decide, by decide⟩

end AiCompanion
